import Mathlib

set_option autoImplicit false

/-! Shallow embedding of the revitpythonwrapper core: `rpw/base.py`
(`BaseObjectWrapper`), `rpw/exceptions.py`, and `rpw/ui/selection.py`
(`Selection`).  The host selection state (`uidoc.Selection`) is modelled as an
explicit ordered list of element identifiers that operations read and replace;
Python exceptions become `Except` errors. -/

/-- Identifier of a Revit element (`DB.ElementId`); wraps the raw integer it
is constructed from. -/
structure ElementId where
  IntegerValue : Int
  deriving DecidableEq, Repr

/-- A Revit element (`DB.Element`) as far as the selection wrapper observes
it: its stable identifier `Id`.  Distinct elements of a document carry
distinct identifiers. -/
structure Element where
  Id : ElementId
  deriving DecidableEq, Repr

/-- Reference kinds the selection API accepts: an identifier object, a native
element reference, or a raw integer. -/
inductive Ref where
  | rid (i : ElementId)
  | relem (e : Element)
  | rint (n : Int)
  deriving DecidableEq, Repr

/-- Python type name of a reference, as `type(x)` reports it in the error
paths of `Selection.add` and `Selection.__contains__`. -/
def Ref.typeName : Ref → String
  | .rid _ => "ElementId"
  | .relem _ => "Element"
  | .rint _ => "int"

/-- Test for `isinstance(e, DB.ElementId)`. -/
def Ref.isElementId : Ref → Bool
  | .rid _ => true
  | _ => false

/-- Test for `isinstance(e, DB.Element)`. -/
def Ref.isElement : Ref → Bool
  | .relem _ => true
  | _ => false

/-- Test for `isinstance(e, int)`. -/
def Ref.isInt : Ref → Bool
  | .rint _ => true
  | _ => false

/-- Identifier denoted by a reference in each of the source's uniform
branches: an identifier itself, an element's `Id`, or `DB.ElementId(int)`. -/
def Ref.toId : Ref → ElementId
  | .rid i => i
  | .relem e => e.Id
  | .rint n => ElementId.mk n

/-- Errors surfaced by the wrapper layer (`rpw/exceptions.py`) and by the
host language: `RPW_Exception` and `RPW_TypeError` carry the data the source
formats into their messages. -/
inductive PyExc where
  | attributeError (name : String)
  | keyError (key : String)
  | indexError
  | rpwException (msg : String)
  | rpwTypeError (expected received : String)
  | otherExc (msg : String)
  deriving DecidableEq, Repr

/-- Message format of `RpwTypeError.__init__` (`rpw/exceptions.py`). -/
def rpwTypeErrorMsg (expected received : String) : String :=
  "expected [" ++ expected ++ "], got [" ++ received ++ "]"

/-- Host selection state: the ordered sequence of element identifiers held by
`uidoc.Selection` (read by `GetElementIds`, replaced by `SetElementIds`). -/
abbrev SelState := List ElementId

/-- Document lookup `doc.GetElement`: the element for an identifier, or
`None` when the identifier resolves to nothing. -/
abbrev Doc := ElementId → Option Element

/-- Argument passed to `Selection.add` or `Selection.__init__`: a single
reference or a Python list of references. -/
inductive SelInput where
  | single (r : Ref)
  | list (rs : List Ref)
  deriving DecidableEq, Repr

/-- Coercion at the top of `Selection.add`:
`if not isinstance(elements_or_ids, list): elements_or_ids = [elements_or_ids]`. -/
def SelInput.toList : SelInput → List Ref
  | .single r => [r]
  | .list rs => rs

/-- Python type name of an input, as `type(x)` reports it. -/
def SelInput.typeName : SelInput → String
  | .single r => r.typeName
  | .list _ => "list"

/-- Python truthiness of an input, as `if elements:` evaluates it: an empty
list and the integer 0 are falsy; identifier and element objects are always
truthy. -/
def SelInput.truthy : SelInput → Bool
  | .single (.rint n) => n != 0
  | .single _ => true
  | .list rs => !rs.isEmpty

/-- Selection.add (`rpw/ui/selection.py` lines 50-74) acting on the host
selection state: normalize the input branch by branch exactly as the source's
three `all(isinstance(...))` checks do, then prepend the resulting ids to the
current selection and replace the host state wholesale with the combination.
The empty-list arm of the final branch mirrors `elements_or_ids[0]` and is
unreachable: an empty list satisfies the first `all` check. -/
def Selection.add (input : SelInput) (s : SelState) : Except PyExc SelState :=
  let elements_or_ids := input.toList
  if elements_or_ids.all Ref.isElementId then
    Except.ok ((elements_or_ids.filterMap fun r => match r with
      | Ref.rid i => some i
      | _ => none) ++ s)
  else if elements_or_ids.all Ref.isElement then
    Except.ok ((elements_or_ids.filterMap fun r => match r with
      | Ref.relem e => some e.Id
      | _ => none) ++ s)
  else if elements_or_ids.all Ref.isInt then
    Except.ok ((elements_or_ids.filterMap fun r => match r with
      | Ref.rint n => some (ElementId.mk n)
      | _ => none) ++ s)
  else
    match elements_or_ids with
    | [] => Except.error PyExc.indexError
    | r :: _ => Except.error (PyExc.rpwTypeError "list" r.typeName)

/-- Selection.element_ids: the ordered identifiers currently held by the host
selection state (`[eid for eid in self._revit_object.GetElementIds()]`). -/
def Selection.element_ids (s : SelState) : List ElementId :=
  s.map fun eid => eid

/-- Selection.elements: resolve each selected identifier through the document
in order, with no caching (`[doc.GetElement(eid) for eid in self.element_ids]`). -/
def Selection.elements (doc : Doc) (s : SelState) : List (Option Element) :=
  (Selection.element_ids s).map doc

/-- Selection.clear: `SetElementIds(List[DB.ElementId]())` replaces the host
selection state with the empty sequence. -/
def Selection.clear (_s : SelState) : SelState :=
  []

/-- Selection.__len__: `len(self.element_ids)`. -/
def Selection.length (s : SelState) : Nat :=
  (Selection.element_ids s).length

/-- Selection.__bool__: `bool(self.elements)`. -/
def Selection.bool_ (doc : Doc) (s : SelState) : Bool :=
  !(Selection.elements doc s).isEmpty

/-- Python list indexing semantics: a negative index counts from the end of
the list, and an index out of range raises `IndexError`. -/
def pyIndex {α : Type} (xs : List α) (i : Int) : Except PyExc α :=
  let j : Int := if i < 0 then i + xs.length else i
  if j < 0 then Except.error PyExc.indexError
  else
    match xs.get? j.toNat with
    | some x => Except.ok x
    | none => Except.error PyExc.indexError

/-- Selection.__getitem__: `return self.elements[index]`, with the host
language's list indexing and no bespoke bounds check. -/
def Selection.getItem (doc : Doc) (s : SelState) (i : Int) : Except PyExc (Option Element) :=
  pyIndex (Selection.elements doc s) i

/-- Selection.__init__ acting on the host selection state: bind to the host
selection handle and, when the optional elements argument is truthy, merge it
via `Selection.add`; a falsy argument (`None`, `[]`, or `0`) skips the merge
(`if elements: self.add(elements)`). -/
def Selection.init (elements : Option SelInput) (s : SelState) : Except PyExc SelState :=
  match elements with
  | none => Except.ok s
  | some input => if input.truthy then Selection.add input s else Except.ok s

/-- Modelled from the spec: `to_element_ids` (module `rpw.utils.coerce`) is
imported by `Selection.__contains__` but its module is not under src/.  Per
the spec, a reference is normalized to an ordered sequence of identifiers:
an identifier maps to itself, a native element reference to its identifier, a
raw integer to the identifier it converts to, and a list normalizes each item
in order. -/
def to_element_ids (input : SelInput) : List ElementId :=
  input.toList.map Ref.toId

/-- Selection.__contains__ (`rpw/ui/selection.py` lines 121-133): normalize
the reference via `to_element_ids`, raise `RPW_TypeError` unless exactly one
identifier results, then report membership
(`any([e == element_id for e in self.element_ids])`). -/
def Selection.contains (ref : SelInput) (s : SelState) : Except PyExc Bool :=
  let ids := to_element_ids ref
  match ids with
  | [element_id] => Except.ok ((Selection.element_ids s).any fun e => e == element_id)
  | _ => Except.error (PyExc.rpwTypeError "element_reference" ref.typeName)

/-- Value stored in a Python attribute slot, as far as the wrapper observes
it. -/
inductive PyVal where
  | int (n : Int)
  | str (s : String)
  | eid (i : ElementId)
  | none_
  deriving DecidableEq, Repr

/-- Decidable equality of `Except` outcomes, used to compare the attribute
behaviors recorded on handles. -/
instance exceptDecEq {ε α : Type} [DecidableEq ε] [DecidableEq α] :
    DecidableEq (Except ε α) := fun x y =>
  match x, y with
  | Except.ok a, Except.ok b =>
    if h : a = b then isTrue (by rw [h]) else isFalse (by intro hc; cases hc; exact h rfl)
  | Except.error a, Except.error b =>
    if h : a = b then isTrue (by rw [h]) else isFalse (by intro hc; cases hc; exact h rfl)
  | Except.ok _, Except.error _ => isFalse (by intro hc; cases hc)
  | Except.error _, Except.ok _ => isFalse (by intro hc; cases hc)

/-- A wrapped native handle: its concrete type name, the names of its base
classes, and its attribute surface.  An entry maps a name to the outcome of
reading it - the value, or the error the attribute's own code raises (a
property getter may raise).  A name with no entry does not exist on the
handle, so reading it raises `AttributeError`. -/
structure Handle where
  ty : String
  bases : List String
  attrs : List (String × Except PyExc PyVal)
  deriving DecidableEq, Repr

/-- Python `isinstance(h, cls)` for a handle: the concrete class or one of
its bases matches. -/
def Handle.isinstanceOf (h : Handle) (cls : String) : Bool :=
  h.ty == cls || h.bases.contains cls

/-- Python `getattr(h, a)`: the attribute's stored outcome, or
`AttributeError` when the name does not exist on the handle. -/
def Handle.getattr (h : Handle) (a : String) : Except PyExc PyVal :=
  match h.attrs.lookup a with
  | some r => r
  | none => Except.error (PyExc.attributeError a)

/-- Python 2 `hasattr(h, a)`: true iff `getattr(h, a)` raises nothing. -/
def Handle.hasattr (h : Handle) (a : String) : Bool :=
  match h.getattr a with
  | Except.ok _ => true
  | Except.error _ => false

/-- Setting an attribute on the handle: the named slot now holds the value;
every other slot is untouched. -/
def Handle.setattr (h : Handle) (a : String) (v : PyVal) : Handle :=
  Handle.mk h.ty h.bases ((a, Except.ok v) :: h.attrs.filter fun p => p.1 != a)

/-- BaseObjectWrapper instance state: the private `_revit_object` slot
(absent only for a malformed construction that skipped `__init__`) and the
wrapper's own instance attributes. -/
structure Wrapper where
  robj : Option Handle
  locals : List (String × PyVal)
  deriving DecidableEq, Repr

/-- Message of the `RPW_Exception` raised by `__getattr__`; the source
formats the wrapper's repr after a colon. -/
def missingRobjMsg : String :=
  "BaseObjectWrapper is missing _revit_object"

/-- BaseObjectWrapper.__getattr__ (`rpw/base.py` lines 63-72), called only
when normal lookup fails.  The `try` block spans both the
`self.__dict__` subscript - which raises `KeyError` when the slot is absent -
and `getattr` on the handle, and the `except KeyError` arm turns either
`KeyError` into the generic `RPW_Exception`; every other error raised by the
handle propagates unchanged. -/
def Wrapper.getattrFallback (w : Wrapper) (a : String) : Except PyExc PyVal :=
  match w.robj with
  | none => Except.error (PyExc.rpwException missingRobjMsg)
  | some h =>
    match h.getattr a with
    | Except.error (PyExc.keyError _) => Except.error (PyExc.rpwException missingRobjMsg)
    | r => r

/-- Attribute read on a wrapper: Python resolves instance attributes first
and only names absent from the instance dict reach `__getattr__`.  Methods of
the wrapper class itself (`unwrap`, `__repr__`) are modelled as the separate
operations below, not as attribute names. -/
def Wrapper.getattr (w : Wrapper) (a : String) : Except PyExc PyVal :=
  match w.locals.lookup a with
  | some v => Except.ok v
  | none => w.getattrFallback a

/-- BaseObjectWrapper.__setattr__ (`rpw/base.py` lines 74-82): when the
handle already exposes the name (`hasattr(self._revit_object, attr)`), write
through to the handle; otherwise store the value on the wrapper itself.
Reading `self._revit_object` with the slot absent goes through `__getattr__`
and raises the generic `RPW_Exception`. -/
def Wrapper.setattr (w : Wrapper) (a : String) (v : PyVal) : Except PyExc Wrapper :=
  match w.robj with
  | none => Except.error (PyExc.rpwException missingRobjMsg)
  | some h =>
    if h.hasattr a then
      Except.ok (Wrapper.mk (some (h.setattr a v)) w.locals)
    else
      Except.ok (Wrapper.mk (some h) ((a, v) :: w.locals.filter fun p => p.1 != a))

/-- BaseObjectWrapper.__init__ (`rpw/base.py` lines 49-61): validate the
handle against the concrete wrapper's declared `_revit_object_class`, raise
`RPW_TypeError(expected_class, type(handle))` on mismatch, and otherwise
store the handle in the private slot via `object.__setattr__`. -/
def BaseObjectWrapper.make (expectedClass : String) (h : Handle) : Except PyExc Wrapper :=
  if h.isinstanceOf expectedClass then
    Except.ok (Wrapper.mk (some h) [])
  else
    Except.error (PyExc.rpwTypeError expectedClass h.ty)

/-- BaseObjectWrapper.unwrap: `return self._revit_object` - normal attribute
lookup finds the slot when present; a malformed wrapper raises through
`__getattr__`. -/
def Wrapper.unwrap (w : Wrapper) : Except PyExc Handle :=
  match w.robj with
  | some h => Except.ok h
  | none => Except.error (PyExc.rpwException missingRobjMsg)

/-! Helper lemmas: in each uniform branch of `Selection.add`, the branch's
extraction agrees with `Ref.toId` on every element of the list. -/

theorem filterMap_rid_of_all (l : List Ref) (hall : l.all Ref.isElementId = true) :
    (l.filterMap fun r => match r with
      | Ref.rid i => some i
      | _ => none) = l.map Ref.toId := by
  induction l with
  | nil => rfl
  | cons r t ih =>
    simp only [List.all_cons, Bool.and_eq_true] at hall
    cases r with
    | rid i => simp [List.filterMap_cons, Ref.toId, ih hall.2]
    | relem e => simp [Ref.isElementId] at hall
    | rint n => simp [Ref.isElementId] at hall

theorem filterMap_relem_of_all (l : List Ref) (hall : l.all Ref.isElement = true) :
    (l.filterMap fun r => match r with
      | Ref.relem e => some e.Id
      | _ => none) = l.map Ref.toId := by
  induction l with
  | nil => rfl
  | cons r t ih =>
    simp only [List.all_cons, Bool.and_eq_true] at hall
    cases r with
    | rid i => simp [Ref.isElement] at hall
    | relem e => simp [List.filterMap_cons, Ref.toId, ih hall.2]
    | rint n => simp [Ref.isElement] at hall

theorem filterMap_rint_of_all (l : List Ref) (hall : l.all Ref.isInt = true) :
    (l.filterMap fun r => match r with
      | Ref.rint n => some (ElementId.mk n)
      | _ => none) = l.map Ref.toId := by
  induction l with
  | nil => rfl
  | cons r t ih =>
    simp only [List.all_cons, Bool.and_eq_true] at hall
    cases r with
    | rid i => simp [Ref.isInt] at hall
    | relem e => simp [Ref.isInt] at hall
    | rint n => simp [List.filterMap_cons, Ref.toId, ih hall.2]

/-- C1: whenever `Selection.add` succeeds, the normalized new identifiers are
prepended, in input order and with no local de-duplication, ahead of the
prior host selection, and the host state is replaced wholesale with the
combination: `element_ids` afterwards is exactly the new identifiers followed
by the prior selection contents. -/
theorem selection_add_prepends (input : SelInput) (s s' : SelState)
    (h : Selection.add input s = Except.ok s') :
    Selection.element_ids s' =
      input.toList.map Ref.toId ++ Selection.element_ids s := by
  unfold Selection.add at h
  dsimp only at h
  split at h
  case isTrue h1 =>
    rw [Except.ok.injEq] at h
    subst h
    simp [Selection.element_ids, filterMap_rid_of_all _ h1]
  case isFalse h1 =>
    split at h
    case isTrue h2 =>
      rw [Except.ok.injEq] at h
      subst h
      simp [Selection.element_ids, filterMap_relem_of_all _ h2]
    case isFalse h2 =>
      split at h
      case isTrue h3 =>
        rw [Except.ok.injEq] at h
        subst h
        simp [Selection.element_ids, filterMap_rint_of_all _ h3]
      case isFalse h3 =>
        split at h <;> exact Except.noConfusion h

/-- Witness for C1 at a concrete call: adding two identifiers ahead of a
selection holding one other identifier. -/
theorem selection_add_prepends_witness :
    Selection.element_ids [ElementId.mk 1, ElementId.mk 2, ElementId.mk 5] =
      (SelInput.list [Ref.rid (ElementId.mk 1), Ref.rid (ElementId.mk 2)]).toList.map Ref.toId
        ++ Selection.element_ids [ElementId.mk 5] :=
  selection_add_prepends
    (SelInput.list [Ref.rid (ElementId.mk 1), Ref.rid (ElementId.mk 2)])
    [ElementId.mk 5] [ElementId.mk 1, ElementId.mk 2, ElementId.mk 5] (by decide)

/-- C2: a non-empty mixed input to `Selection.add` - not all identifiers, not
all native elements, not all raw integers - fails with `RPW_TypeError` whose
received-type field names the type of the first element of the offending
sequence (`type(elements_or_ids[0])`). -/
theorem selection_add_mixed_rejected (input : SelInput) (s : SelState)
    (r : Ref) (rs : List Ref)
    (hhead : input.toList = r :: rs)
    (h1 : input.toList.all Ref.isElementId = false)
    (h2 : input.toList.all Ref.isElement = false)
    (h3 : input.toList.all Ref.isInt = false) :
    Selection.add input s = Except.error (PyExc.rpwTypeError "list" r.typeName) := by
  have h1a : (r :: rs).all Ref.isElementId = false := hhead ▸ h1
  have h2a : (r :: rs).all Ref.isElement = false := hhead ▸ h2
  have h3a : (r :: rs).all Ref.isInt = false := hhead ▸ h3
  simp [Selection.add, hhead, h1a, h2a, h3a]

/-- Witness for C2 at a concrete call: one identifier plus one raw element in
the same list. -/
theorem selection_add_mixed_rejected_witness :
    Selection.add
      (SelInput.list [Ref.rid (ElementId.mk 1), Ref.relem (Element.mk (ElementId.mk 2))]) [] =
      Except.error (PyExc.rpwTypeError "list" (Ref.rid (ElementId.mk 1)).typeName) :=
  selection_add_mixed_rejected
    (SelInput.list [Ref.rid (ElementId.mk 1), Ref.relem (Element.mk (ElementId.mk 2))]) []
    (Ref.rid (ElementId.mk 1)) [Ref.relem (Element.mk (ElementId.mk 2))]
    (by decide) (by decide) (by decide) (by decide)

/-- C7: Selection.__contains__ first normalizes the reference to an
identifier sequence, fails with `RPW_TypeError` whenever that normalization
yields zero or more than one identifier, and otherwise answers true exactly
when the single resulting identifier occurs among `element_ids`. -/
theorem selection_contains_spec (ref : SelInput) (s : SelState) :
    ((to_element_ids ref).length ≠ 1 →
      Selection.contains ref s =
        Except.error (PyExc.rpwTypeError "element_reference" ref.typeName))
  ∧ (∀ i, to_element_ids ref = [i] →
      ∃ b, Selection.contains ref s = Except.ok b ∧
        (b = true ↔ i ∈ Selection.element_ids s)) := by
  constructor
  · intro hlen
    unfold Selection.contains
    cases hids : to_element_ids ref with
    | nil => rfl
    | cons i t =>
      cases t with
      | nil => rw [hids] at hlen; exact absurd rfl hlen
      | cons j u => rfl
  · intro i hi
    refine ⟨(Selection.element_ids s).any fun e => e == i, ?_, ?_⟩
    · unfold Selection.contains
      rw [hi]
    · simp [List.any_eq_true, beq_iff_eq]

/-- Witness for C7 at concrete calls: a reference normalizing to no
identifier is rejected, and an element reference is looked up among the
selected identifiers. -/
theorem selection_contains_spec_witness :
    (Selection.contains (SelInput.list []) [ElementId.mk 7] =
      Except.error (PyExc.rpwTypeError "element_reference" "list"))
  ∧ ∃ b, Selection.contains (SelInput.single (Ref.relem (Element.mk (ElementId.mk 7))))
        [ElementId.mk 7] = Except.ok b ∧
      (b = true ↔ ElementId.mk 7 ∈ Selection.element_ids [ElementId.mk 7]) :=
  ⟨(selection_contains_spec (SelInput.list []) [ElementId.mk 7]).1 (by decide),
   (selection_contains_spec (SelInput.single (Ref.relem (Element.mk (ElementId.mk 7))))
      [ElementId.mk 7]).2 (ElementId.mk 7) (by decide)⟩

/-- C8: Selection.__getitem__ returns the entry at position `i` of the
resolved elements sequence, and an out-of-range index surfaces the host
language's `IndexError` - no bespoke bounds check and no substitute value. -/
theorem selection_getitem_spec (doc : Doc) (s : SelState) (i : Int) :
    (∀ x, 0 ≤ i → (Selection.elements doc s)[i.toNat]? = some x →
      Selection.getItem doc s i = Except.ok x)
  ∧ ((((Selection.elements doc s).length : Int) ≤ i ∨
        i < -((Selection.elements doc s).length : Int)) →
      Selection.getItem doc s i = Except.error PyExc.indexError) := by
  constructor
  · intro x h0 hx
    have hnot : ¬ i < 0 := not_lt.mpr h0
    simp [Selection.getItem, pyIndex, hnot, hx]
  · intro hor
    cases hor with
    | inl hge =>
      have hnot : ¬ i < 0 := by omega
      have hnone : (Selection.elements doc s)[i.toNat]? = none := by
        apply List.getElem?_eq_none
        omega
      simp [Selection.getItem, pyIndex, hnot, hnone]
    | inr hlt =>
      have hneg : i < 0 := by omega
      have hjneg : i + ((Selection.elements doc s).length : Int) < 0 := by omega
      simp [Selection.getItem, pyIndex, hneg, hjneg]

/-- Witness for C8 at concrete calls: index 0 of a two-element selection
resolves, and index 5 raises IndexError. -/
theorem selection_getitem_spec_witness :
    (Selection.getItem (fun eid => some (Element.mk eid)) [ElementId.mk 1, ElementId.mk 2] 0 =
      Except.ok (some (Element.mk (ElementId.mk 1))))
  ∧ (Selection.getItem (fun eid => some (Element.mk eid)) [ElementId.mk 1, ElementId.mk 2] 5 =
      Except.error PyExc.indexError) :=
  ⟨(selection_getitem_spec (fun eid => some (Element.mk eid)) [ElementId.mk 1, ElementId.mk 2] 0).1
      (some (Element.mk (ElementId.mk 1))) (by decide) (by decide),
   (selection_getitem_spec (fun eid => some (Element.mk eid)) [ElementId.mk 1, ElementId.mk 2] 5).2
      (Or.inl (by decide))⟩

/-- C9: Selection.clear replaces the host selection state with the empty
sequence, after which the length is zero and the truthiness is false. -/
theorem selection_clear_spec (doc : Doc) (s : SelState) :
    Selection.clear s = [] ∧
    Selection.length (Selection.clear s) = 0 ∧
    Selection.bool_ doc (Selection.clear s) = false :=
  ⟨rfl, rfl, rfl⟩

/-- C10: constructing a Selection with a falsy initial argument - the empty
list or the raw integer 0 - skips the merge step and leaves the host
selection state unchanged, raising no error. -/
theorem selection_init_falsy_skips (s : SelState) :
    Selection.init (some (SelInput.list [])) s = Except.ok s ∧
    Selection.init (some (SelInput.single (Ref.rint 0))) s = Except.ok s :=
  ⟨rfl, rfl⟩

/-- C3: evaluation of the code at the failing input.  With the private slot
present and holding a valid handle, a KeyError raised by the handle's own
attribute code is not propagated unchanged: the `except KeyError` arm of
`__getattr__` spans the delegated `getattr` too, so the KeyError is
translated into the generic missing-_revit_object `RPW_Exception` - whose
message is false there, since `_revit_object` is present.  A non-KeyError
error raised by the handle is propagated unchanged. -/
theorem wrapper_keyerror_translated :
    (Wrapper.getattr
      (Wrapper.mk (some (Handle.mk "Wall" ["Element"]
        [("data", Except.error (PyExc.keyError "config"))])) []) "data" =
      Except.error (PyExc.rpwException missingRobjMsg))
  ∧ (Wrapper.getattr
      (Wrapper.mk (some (Handle.mk "Wall" ["Element"]
        [("data", Except.error (PyExc.otherExc "InvalidOperationException"))])) []) "data" =
      Except.error (PyExc.otherExc "InvalidOperationException")) :=
  ⟨rfl, rfl⟩

/-- C4: on a freshly wrapped handle, reading an attribute the handle exposes
returns the handle's own value; setting a name the handle already exposes
writes through to the handle, whose slot then holds the new value; setting a
name the handle does not expose stores the value locally on the wrapper and
leaves the handle unchanged. -/
theorem wrapper_delegation_spec (h : Handle) (a : String) (v v0 : PyVal) :
    (h.getattr a = Except.ok v0 →
      Wrapper.getattr (Wrapper.mk (some h) []) a = Except.ok v0)
  ∧ (h.hasattr a = true →
      Wrapper.setattr (Wrapper.mk (some h) []) a v =
        Except.ok (Wrapper.mk (some (h.setattr a v)) []) ∧
      (h.setattr a v).getattr a = Except.ok v)
  ∧ (h.hasattr a = false →
      Wrapper.setattr (Wrapper.mk (some h) []) a v =
        Except.ok (Wrapper.mk (some h) [(a, v)])) := by
  refine ⟨?_, ?_, ?_⟩
  · intro hget
    simp [Wrapper.getattr, Wrapper.getattrFallback, List.lookup, hget]
  · intro hhas
    constructor
    · simp [Wrapper.setattr, hhas]
    · simp [Handle.setattr, Handle.getattr, List.lookup]
  · intro hhasn
    simp [Wrapper.setattr, hhasn]

/-- Witness for C4 at a concrete handle: reading `Pinned` delegates to the
handle, and setting `Comment` - absent from the handle - lands on the
wrapper. -/
theorem wrapper_delegation_spec_witness :
    (Wrapper.getattr
      (Wrapper.mk (some (Handle.mk "Wall" ["Element"] [("Pinned", Except.ok (PyVal.int 1))])) [])
      "Pinned" = Except.ok (PyVal.int 1))
  ∧ (Wrapper.setattr
      (Wrapper.mk (some (Handle.mk "Wall" ["Element"] [("Pinned", Except.ok (PyVal.int 1))])) [])
      "Comment" (PyVal.str "x") =
      Except.ok (Wrapper.mk
        (some (Handle.mk "Wall" ["Element"] [("Pinned", Except.ok (PyVal.int 1))]))
        [("Comment", PyVal.str "x")])) :=
  ⟨(wrapper_delegation_spec
      (Handle.mk "Wall" ["Element"] [("Pinned", Except.ok (PyVal.int 1))])
      "Pinned" (PyVal.int 0) (PyVal.int 1)).1 (by decide),
   (wrapper_delegation_spec
      (Handle.mk "Wall" ["Element"] [("Pinned", Except.ok (PyVal.int 1))])
      "Comment" (PyVal.str "x") (PyVal.int 0)).2.2 (by decide)⟩

/-- C5: for a handle that is an instance of the wrapper's declared expected
class, construction succeeds storing the handle itself in the slot, and
unwrap returns that very handle - identity, no copy. -/
theorem wrap_unwrap_identity (cls : String) (h : Handle)
    (hinst : h.isinstanceOf cls = true) :
    BaseObjectWrapper.make cls h = Except.ok (Wrapper.mk (some h) []) ∧
    (Wrapper.mk (some h) []).unwrap = Except.ok h := by
  constructor
  · simp [BaseObjectWrapper.make, hinst]
  · rfl

/-- Witness for C5 at a concrete handle of the declared class. -/
theorem wrap_unwrap_identity_witness :
    BaseObjectWrapper.make "Selection" (Handle.mk "Selection" [] []) =
      Except.ok (Wrapper.mk (some (Handle.mk "Selection" [] [])) []) ∧
    (Wrapper.mk (some (Handle.mk "Selection" [] [])) []).unwrap =
      Except.ok (Handle.mk "Selection" [] []) :=
  wrap_unwrap_identity "Selection" (Handle.mk "Selection" [] []) (by decide)

/-- C6: for a handle that is not an instance of the wrapper's declared
expected class, construction fails with `RPW_TypeError` carrying the expected
class and the received type, and no wrapper holding the handle is
produced. -/
theorem wrap_type_mismatch (cls : String) (h : Handle)
    (hinst : h.isinstanceOf cls = false) :
    BaseObjectWrapper.make cls h = Except.error (PyExc.rpwTypeError cls h.ty) ∧
    ∀ w, BaseObjectWrapper.make cls h ≠ Except.ok w := by
  have hmk : BaseObjectWrapper.make cls h = Except.error (PyExc.rpwTypeError cls h.ty) := by
    simp [BaseObjectWrapper.make, hinst]
  refine ⟨hmk, fun w hw => ?_⟩
  rw [hmk] at hw
  exact Except.noConfusion hw

/-- Witness for C6 at a concrete handle of the wrong class. -/
theorem wrap_type_mismatch_witness :
    BaseObjectWrapper.make "Selection" (Handle.mk "Wall" ["Element"] []) =
      Except.error (PyExc.rpwTypeError "Selection" "Wall") ∧
    ∀ w, BaseObjectWrapper.make "Selection" (Handle.mk "Wall" ["Element"] []) ≠ Except.ok w :=
  wrap_type_mismatch "Selection" (Handle.mk "Wall" ["Element"] []) (by decide)
